import Mathlib

/-!
Shallow embedding of `discord-chat-cleaner.py`: the transport client
(`Crawler._request` and the modify/delete wrappers), the search paginator
(`Crawler.search_messages_by_author_id`), and the per-message mutation loop of
`main`.  HTTP traffic is modelled by a scripted server: a function from the
attempt index to the `Response` it returns (for the transport client), or a
list of search pages consumed one per loop iteration (for the paginator).
Wall-clock sleeps are recorded as a trace of `SleepEvent`s, durations in
seconds as rationals.  Python `int` message IDs are `Int`.
-/

set_option autoImplicit false

/-- An HTTP response as the code consumes it: `status_code`, raw `text`, and
the `retry_after` field (milliseconds) that `res.json()` exposes on 429. -/
structure Response where
  status_code : Nat
  text : String
  retry_after : Nat
deriving Repr, DecidableEq, Inhabited

/-- A blocking sleep executed by `_request`: either the fixed per-call
`time.sleep(self.default_sleep)` or the 429 backoff
`time.sleep(retry_after / 1000)`.  Durations in seconds. -/
inductive SleepEvent where
  | defaultSleep (secs : ℚ)
  | backoff (secs : ℚ)
deriving Repr, DecidableEq

/-- Whether a sleep event is the fixed `default_sleep` throttle. -/
def SleepEvent.isDefault : SleepEvent → Bool
  | .defaultSleep _ => true
  | .backoff _ => false

/-- Outcome of `Crawler._request`: a returned response, a raised
`DiscordApiError` (carrying the HTTP code and the `details` string), or the
Python function running off the end of its retry loop — it logs critical and
implicitly returns `None`. -/
inductive ReqResult where
  | success (r : Response)
  | apiError (http_code : Nat) (details : String)
  | noResponse
deriving Repr, DecidableEq

namespace Crawler

/-- `Crawler.API_URL`. -/
def API_URL : String := "https://discordapp.com/api/v6"

/-- `Crawler.HTTP_CODE_MESSAGES`, restricted to its integer keys; the Python
dict also holds a string key `5xx`, which an integer status code never
equals, so membership tests in the code see exactly these six codes. -/
def HTTP_CODE_MESSAGES (c : Nat) : Option String :=
  if c = 400 then some "The request was improperly formatted, or the server couldn\x27t understand it."
  else if c = 401 then some "The Authorization header was missing or invalid."
  else if c = 403 then some "The Authorization token you passed did not have permission to the resource."
  else if c = 404 then some "The resource at the location specified doesn\x27t exist."
  else if c = 405 then some "The HTTP method used is not valid for the location specified."
  else if c = 502 then some "There was not a gateway available to process your request. Wait a bit and retry."
  else none

/-- The value of `Crawler.HTTP_CODE_MESSAGES` at its string key `5xx`. -/
def HTTP_CODE_MESSAGE_5xx : String := "The server had an error processing your request."

/-- `Crawler.RATE_LIMITED_RETRY`. -/
def RATE_LIMITED_RETRY : Nat := 5

/-- The `for i in range(RATE_LIMITED_RETRY)` loop body of `Crawler._request`.
`server i` is the response the HTTP call of attempt `i` receives; `fuel` is
the number of loop iterations remaining.  Returns the trace of sleeps the
loop performs, the number of HTTP attempts made, and the result.  Falling out
of the loop (fuel exhausted by repeated 429s) is `ReqResult.noResponse`: the
code logs critical and returns `None`. -/
def attemptLoop (server : Nat → Response) : Nat → Nat → List SleepEvent × Nat × ReqResult
  | _, 0 => ([], 0, .noResponse)
  | i, fuel + 1 =>
    let res := server i
    match HTTP_CODE_MESSAGES res.status_code with
    | some msg => ([], 1, .apiError res.status_code (msg ++ "\n" ++ res.text))
    | none =>
      if 500 ≤ res.status_code ∧ res.status_code < 600 then
        ([], 1, .apiError res.status_code HTTP_CODE_MESSAGE_5xx)
      else if res.status_code = 429 then
        let rec_ := attemptLoop server (i + 1) fuel
        (.backoff ((res.retry_after : ℚ) / 1000) :: rec_.1, rec_.2.1 + 1, rec_.2.2)
      else
        ([], 1, .success res)

/-- `Crawler._request`: sleeps `default_sleep` once, then runs the retry
loop.  Returns the sleep trace, attempt count, and result. -/
def _request (default_sleep : ℚ) (server : Nat → Response) :
    List SleepEvent × Nat × ReqResult :=
  let body := attemptLoop server 0 RATE_LIMITED_RETRY
  (.defaultSleep default_sleep :: body.1, body.2.1, body.2.2)

/-- `Crawler.modify_channel_message_by_message_id`: catches `DiscordApiError`
and returns `False`; any other way `_request` comes back (a response, or
`None` after ceiling exhaustion) reaches `return True`. -/
def modify_channel_message_by_message_id (default_sleep : ℚ)
    (server : Nat → Response) (_channel_id _message_id : Int) : Bool :=
  match (_request default_sleep server).2.2 with
  | .apiError _ _ => false
  | _ => true

/-- `Crawler.delete_channel_message_by_message_id`: same structure as the
modify wrapper. -/
def delete_channel_message_by_message_id (default_sleep : ℚ)
    (server : Nat → Response) (_channel_id _message_id : Int) : Bool :=
  match (_request default_sleep server).2.2 with
  | .apiError _ _ => false
  | _ => true

end Crawler

/-- A message as the search response carries it: numeric `id` and
`channel_id` (Python converts the JSON strings with `int(...)`), the server
timestamp string, the content, and the `hit` flag (`'hit' in message and
message['hit']`: absent or falsy collapses to `false`). -/
structure Message where
  id : Int
  channel_id : Int
  timestamp : String
  content : String
  hit : Bool
deriving Repr, DecidableEq, Inhabited

/-- One page of the search endpoint response: `total_results` and the grouped
message blocks of the `messages` field. -/
structure SearchPage where
  total_results : Nat
  messages : List (List Message)
deriving Repr, Inhabited

namespace Crawler

/-- The per-block hit extraction
`list(filter(lambda message: 'hit' in message and message['hit'], block))[0]`:
the first hit-flagged message of the block, or `none` where Python raises
`IndexError` because the filtered list is empty. -/
def extractHit (block : List Message) : Option Message :=
  (block.filter (·.hit)).head?

/-- Line 82–83 of the source: extraction applied to every block of a page.
`none` when some block has no hit-flagged message — Python raises
`IndexError` there and the whole page fails. -/
def extractHits : List (List Message) → Option (List Message)
  | [] => some []
  | b :: bs =>
    match extractHit b, extractHits bs with
    | some m, some rest => some (m :: rest)
    | _, _ => none

/-- How a run of the paginator's `while True` loop ends. -/
inductive PagEnd where
  | normal
  | extractError
  | scriptEnd
deriving Repr, DecidableEq

/-- The filter of line 88:
`oldest_message_id <= int(message['id']) <= newest_message_id`. -/
def inRange (oldest newest : Int) (m : Message) : Bool :=
  decide (oldest ≤ m.id) && decide (m.id ≤ newest)

/-- `int(messages[-1]['id'])` of a batch known to be nonempty; `0` is a dummy
for the empty list, never reached on the code path that uses it. -/
def lastId (l : List Message) : Int :=
  match l.getLast? with
  | some m => m.id
  | none => 0

/-- The `while True` loop of `search_messages_by_author_id` over a scripted
sequence of search pages, one consumed per iteration.  State: remaining
script, `offset`, the narrowing `newest_message_id`, and the running
`total_results_size`.  Returns the yielded `(total_results_size, batch)`
pairs in order and how the loop ended.  `PagEnd.scriptEnd` marks the model
boundary where the script has no page for the next request. -/
def searchGo (oldest : Int) :
    List SearchPage → Nat → Int → Nat → List (Nat × List Message) × PagEnd
  | [], _, _, _ => ([], .scriptEnd)
  | page :: rest, offset, newest, total =>
    match extractHits page.messages with
    | none => ([], .extractError)
    | some hits =>
      match hits with
      | [] => ([], .normal)
      | first :: _ =>
        if first.id < oldest then ([], .normal)
        else
          let filtered := hits.filter (inRange oldest newest)
          if filtered.length = 0 then
            searchGo oldest rest (offset + hits.length) newest total
          else
            let total_upd := total + filtered.length
            let tail := searchGo oldest rest offset (lastId filtered - 1) total_upd
            ((total_upd, filtered) :: tail.1, tail.2)

/-- `Crawler.search_messages_by_author_id` over a scripted server.  The
routing arguments (`room_id`, `room_type`, `author_id`) only build the
request URL and query, which the script abstracts; `room_type` is validated
upstream by the CLI to `channel`/`guild`, so the assertion branch is dead. -/
def search_messages_by_author_id (oldest_message_id newest_message_id : Int)
    (script : List SearchPage) : List (Nat × List Message) × PagEnd :=
  searchGo oldest_message_id script 0 newest_message_id 0

end Crawler

/-- The `--replace-before-delete` mode. -/
inductive ReplaceMode where
  | random
  | fixed
  | nonemode
deriving Repr, DecidableEq

/-- A mutation HTTP call issued by the orchestrator loop, in issue order. -/
inductive MutCall where
  | replace (channel_id message_id : Int) (content : String)
  | delete (channel_id message_id : Int)
deriving Repr, DecidableEq

/-- Outcomes of the remote for the mutation calls, and the value
`generate_random()` produces, keyed by message ID: the environment the
per-message loop body runs against. -/
structure MutOracle where
  replaceOk : Int → Bool
  deleteOk : Int → Bool
  randStr : Int → String

/-- Lines 179–190 of `main`, for one message: optional replace (content from
`generate_random()` in `random` mode, the `--replace-to` string in `fixed`
mode), then delete only when `is_success`; returns the calls issued in order
and the increment to `failed_count`. -/
def processMessage (mode : ReplaceMode) (replace_to : String) (o : MutOracle)
    (m : Message) : List MutCall × Nat :=
  let message_id := m.id
  let channel_id := m.channel_id
  if mode = .nonemode then
    if o.deleteOk message_id then ([.delete channel_id message_id], 0)
    else ([.delete channel_id message_id], 1)
  else
    let content := if mode = .random then o.randStr message_id else replace_to
    if o.replaceOk message_id then
      if o.deleteOk message_id then
        ([.replace channel_id message_id content, .delete channel_id message_id], 0)
      else
        ([.replace channel_id message_id content, .delete channel_id message_id], 1)
    else
      ([.replace channel_id message_id content], 1)

/-- What the summary block of `main` reads after the loop: the last yielded
`total_results_size` (0 when the paginator yielded nothing), the accumulated
`failed_count`, and the trace of mutation calls issued. -/
structure RunSummary where
  total_results_size : Nat
  failed_count : Nat
  mutations : List MutCall
deriving Repr, DecidableEq

/-- The `for total_results_size, messages in pbar` loop of `main`, folded
over the paginator's yields. -/
def runBatches (mode : ReplaceMode) (replace_to : String) (o : MutOracle) :
    List (Nat × List Message) → Nat → Nat → List MutCall → RunSummary
  | [], total, failed, muts => ⟨total, failed, muts⟩
  | (t, msgs) :: rest, _, failed, muts =>
    let step := msgs.foldl
      (fun acc m =>
        let pm := processMessage mode replace_to o m
        (acc.1 + pm.2, acc.2 ++ pm.1))
      ((failed, muts) : Nat × List MutCall)
    runBatches mode replace_to o rest t step.1 step.2

/-- The orchestrator loop of `main` started from its initial counters. -/
def mainRun (mode : ReplaceMode) (replace_to : String) (o : MutOracle)
    (ys : List (Nat × List Message)) : RunSummary :=
  runBatches mode replace_to o ys 0 0 []

/-! ### Transport client: helper lemmas -/

lemma attemptLoop_sleeps_backoff (server : Nat → Response) :
    ∀ (fuel i : Nat) (e : SleepEvent),
      e ∈ (Crawler.attemptLoop server i fuel).1 → e.isDefault = false := by
  intro fuel
  induction fuel with
  | zero => intro i e h; simp [Crawler.attemptLoop] at h
  | succ n ih =>
    intro i e h
    simp only [Crawler.attemptLoop] at h
    split at h
    · simp at h
    · split at h
      · simp at h
      · split at h
        · rcases List.mem_cons.mp h with rfl | h2
          · rfl
          · exact ih (i + 1) e h2
        · simp at h

/-- C2: the code contradicts the claim.  Five consecutive 429 responses make
`_request` exhaust its ceiling after exactly 5 attempts and return no
response (Python: logs critical, returns `None`); but the delete and modify
wrappers then report `True` — success — instead of propagating an
unrecoverable error. -/
theorem C2_retry_ceiling_reports_success :
    (Crawler._request 0 (fun _ => ⟨429, "", 100⟩)).2.2 = ReqResult.noResponse ∧
    (Crawler._request 0 (fun _ => ⟨429, "", 100⟩)).2.1 = 5 ∧
    Crawler.delete_channel_message_by_message_id 0 (fun _ => ⟨429, "", 100⟩) 1 2 = true ∧
    Crawler.modify_channel_message_by_message_id 0 (fun _ => ⟨429, "", 100⟩) 1 2 = true := by
  decide

/-- C3 is false on the code: with one 429 then a success the call makes 2
HTTP attempts but the `default_sleep` throttle is slept exactly once, not
before each attempt. -/
theorem C3_counterexample_sleep_only_once :
    ((Crawler._request 1 (fun n => if n = 0 then ⟨429, "", 200⟩ else ⟨200, "", 0⟩)).2.1 = 2) ∧
    (((Crawler._request 1 (fun n => if n = 0 then ⟨429, "", 200⟩ else ⟨200, "", 0⟩)).1.filter
        SleepEvent.isDefault).length = 1) ∧
    ¬ (((Crawler._request 1 (fun n => if n = 0 then ⟨429, "", 200⟩ else ⟨200, "", 0⟩)).1.filter
        SleepEvent.isDefault).length =
      (Crawler._request 1 (fun n => if n = 0 then ⟨429, "", 200⟩ else ⟨200, "", 0⟩)).2.1) := by
  decide

/-- C3 (amended): `_request` sleeps `default_sleep` exactly once per call,
as the first sleep of the call, before the first attempt; retry attempts are
preceded only by the 429 backoff sleep, never by another `default_sleep`. -/
theorem C3_amended_default_sleep_once_per_call (ds : ℚ) (server : Nat → Response) :
    (Crawler._request ds server).1.head? = some (SleepEvent.defaultSleep ds) ∧
    (Crawler._request ds server).1.filter SleepEvent.isDefault =
      [SleepEvent.defaultSleep ds] := by
  refine ⟨rfl, ?_⟩
  show (SleepEvent.defaultSleep ds ::
      (Crawler.attemptLoop server 0 Crawler.RATE_LIMITED_RETRY).1).filter
      SleepEvent.isDefault = _
  rw [List.filter_cons_of_pos rfl]
  have hnil : (Crawler.attemptLoop server 0 Crawler.RATE_LIMITED_RETRY).1.filter
      SleepEvent.isDefault = [] := by
    apply List.filter_eq_nil_iff.mpr
    intro e he
    simp [attemptLoop_sleeps_backoff server _ _ e he]
  rw [hnil]

/-- C7: a 429 response carrying `retry_after = 200` followed by a status-200
response makes `_request` sleep 0.2 s between the two attempts, make exactly
2 HTTP attempts, and return the second response as success. -/
theorem C7_retry_after_then_success (ds : ℚ) (server : Nat → Response)
    (h0 : (server 0).status_code = 429) (h0r : (server 0).retry_after = 200)
    (h1 : (server 1).status_code = 200) :
    Crawler._request ds server =
      ([SleepEvent.defaultSleep ds, SleepEvent.backoff (1/5)], 2,
        ReqResult.success (server 1)) := by
  simp [Crawler._request, Crawler.RATE_LIMITED_RETRY, Crawler.attemptLoop,
    Crawler.HTTP_CODE_MESSAGES, h0, h0r, h1]
  norm_num

/-- Witness for C7 at a concrete scripted server. -/
theorem C7_witness :
    Crawler._request 0 (fun n => if n = 0 then ⟨429, "", 200⟩ else ⟨200, "ok", 0⟩) =
      ([SleepEvent.defaultSleep 0, SleepEvent.backoff (1/5)], 2,
        ReqResult.success ⟨200, "ok", 0⟩) := by
  have h := C7_retry_after_then_success 0
    (fun n => if n = 0 then ⟨429, "", 200⟩ else ⟨200, "ok", 0⟩)
    (by decide) (by decide) (by decide)
  simpa using h

/-- Whether `needle` occurs as a contiguous run inside `hay`. -/
def hasSub (needle : List Char) : List Char → Bool
  | [] => needle.isEmpty
  | c :: rest => needle.isPrefixOf (c :: rest) || hasSub needle rest

/-- C8 is false as stated: a status-500 response fails immediately, but the
error's details are only the generic `5xx` explanation — the raw response
body (here `"BODY"`) is not carried, and the details differ from the
explanation-plus-body format the code uses for the six listed codes. -/
theorem C8_counterexample_5xx_body_dropped :
    (Crawler._request 0 (fun _ => ⟨500, "BODY", 0⟩)).2.2 =
      ReqResult.apiError 500 Crawler.HTTP_CODE_MESSAGE_5xx ∧
    hasSub "BODY".toList Crawler.HTTP_CODE_MESSAGE_5xx.toList = false ∧
    Crawler.HTTP_CODE_MESSAGE_5xx ≠ Crawler.HTTP_CODE_MESSAGE_5xx ++ "\n" ++ "BODY" := by
  decide

/-- C8 (amended): a first response with status in
{400, 401, 403, 404, 405, 502} makes `_request` fail on the first attempt
with no retry, raising an error carrying the HTTP code and the canned
explanation joined with the raw response body; any other status in
[500, 600) also fails on the first attempt with no retry, but the error
carries only the HTTP code and the generic `5xx` explanation, without the
body. -/
theorem C8_amended_terminal_errors (ds : ℚ) (server : Nat → Response) :
    (∀ msg, Crawler.HTTP_CODE_MESSAGES (server 0).status_code = some msg →
      Crawler._request ds server =
        ([SleepEvent.defaultSleep ds], 1,
          ReqResult.apiError (server 0).status_code (msg ++ "\n" ++ (server 0).text)))
    ∧ (Crawler.HTTP_CODE_MESSAGES (server 0).status_code = none →
      500 ≤ (server 0).status_code → (server 0).status_code < 600 →
      Crawler._request ds server =
        ([SleepEvent.defaultSleep ds], 1,
          ReqResult.apiError (server 0).status_code Crawler.HTTP_CODE_MESSAGE_5xx)) := by
  constructor
  · intro msg hmsg
    simp [Crawler._request, Crawler.RATE_LIMITED_RETRY, Crawler.attemptLoop, hmsg]
  · intro hnone h5 h6
    simp [Crawler._request, Crawler.RATE_LIMITED_RETRY, Crawler.attemptLoop, hnone, h5, h6]

/-- Witness for the amended C8 at concrete scripted servers: one with a 404
response, one with a 503 response. -/
theorem C8_amended_witness :
    Crawler._request 0 (fun _ => ⟨404, "nf", 0⟩) =
      ([SleepEvent.defaultSleep 0], 1,
        ReqResult.apiError 404
          ("The resource at the location specified doesn\x27t exist." ++ "\n" ++ "nf")) ∧
    Crawler._request 0 (fun _ => ⟨503, "oops", 0⟩) =
      ([SleepEvent.defaultSleep 0], 1,
        ReqResult.apiError 503 Crawler.HTTP_CODE_MESSAGE_5xx) := by
  constructor
  · have h := (C8_amended_terminal_errors 0 (fun _ => ⟨404, "nf", 0⟩)).1
      "The resource at the location specified doesn\x27t exist." (by decide)
    simpa using h
  · have h := (C8_amended_terminal_errors 0 (fun _ => ⟨503, "oops", 0⟩)).2
      (by decide) (by decide) (by decide)
    simpa using h

/-! ### Search paginator: helper lemmas -/

lemma lastId_mem {l : List Message} (h : l ≠ []) :
    ∃ m ∈ l, Crawler.lastId l = m.id := by
  refine ⟨l.getLast h, List.getLast_mem h, ?_⟩
  simp [Crawler.lastId, List.getLast?_eq_getLast_of_ne_nil h]

lemma of_mem_filter_inRange {oldest newest : Int} {hits : List Message}
    {m : Message} (h : m ∈ hits.filter (Crawler.inRange oldest newest)) :
    oldest ≤ m.id ∧ m.id ≤ newest := by
  have h2 := (List.mem_filter.mp h).2
  simpa [Crawler.inRange] using h2

lemma searchGo_cons (oldest : Int) (page : SearchPage) (rest : List SearchPage)
    (offset : Nat) (newest : Int) (total : Nat) :
    Crawler.searchGo oldest (page :: rest) offset newest total =
      match Crawler.extractHits page.messages with
      | none => ([], Crawler.PagEnd.extractError)
      | some [] => ([], Crawler.PagEnd.normal)
      | some (first :: tl) =>
        if first.id < oldest then ([], Crawler.PagEnd.normal)
        else if ((first :: tl).filter (Crawler.inRange oldest newest)).length = 0 then
          Crawler.searchGo oldest rest (offset + (first :: tl).length) newest total
        else
          ((total + ((first :: tl).filter (Crawler.inRange oldest newest)).length,
              (first :: tl).filter (Crawler.inRange oldest newest)) ::
            (Crawler.searchGo oldest rest offset
              (Crawler.lastId ((first :: tl).filter (Crawler.inRange oldest newest)) - 1)
              (total + ((first :: tl).filter (Crawler.inRange oldest newest)).length)).1,
           (Crawler.searchGo oldest rest offset
              (Crawler.lastId ((first :: tl).filter (Crawler.inRange oldest newest)) - 1)
              (total + ((first :: tl).filter (Crawler.inRange oldest newest)).length)).2) := by
  cases hext : Crawler.extractHits page.messages with
  | none => simp [Crawler.searchGo, hext]
  | some hits =>
    cases hits with
    | nil => simp [Crawler.searchGo, hext]
    | cons first tl => simp [Crawler.searchGo, hext]

lemma searchGo_bounds (oldest : Int) (script : List SearchPage) :
    ∀ (offset : Nat) (newest : Int) (total : Nat) (p : Nat × List Message),
      p ∈ (Crawler.searchGo oldest script offset newest total).1 →
      ∀ m ∈ p.2, oldest ≤ m.id ∧ m.id ≤ newest := by
  induction script with
  | nil =>
    intro offset newest total p hp
    simp [Crawler.searchGo] at hp
  | cons page rest ih =>
    intro offset newest total p hp
    rw [searchGo_cons] at hp
    cases hext : Crawler.extractHits page.messages with
    | none =>
      rw [hext] at hp
      simp at hp
    | some hits =>
      rw [hext] at hp
      cases hits with
      | nil => simp at hp
      | cons first tl =>
        dsimp only at hp
        by_cases hfloor : first.id < oldest
        · rw [if_pos hfloor] at hp
          simp at hp
        · rw [if_neg hfloor] at hp
          by_cases hflen : ((first :: tl).filter (Crawler.inRange oldest newest)).length = 0
          · rw [if_pos hflen] at hp
            exact ih _ _ _ p hp
          · rw [if_neg hflen] at hp
            dsimp only at hp
            simp only [List.mem_cons] at hp
            rcases hp with rfl | hp2
            · intro m hm
              exact of_mem_filter_inRange hm
            · intro m hm
              have hne : (first :: tl).filter (Crawler.inRange oldest newest) ≠ [] := by
                intro hcontra
                rw [hcontra] at hflen
                simp at hflen
              obtain ⟨ml, hml, hid⟩ := lastId_mem hne
              have hml2 := of_mem_filter_inRange hml
              have hrec := ih _ _ _ p hp2 m hm
              refine ⟨hrec.1, ?_⟩
              have hle : m.id ≤
                  Crawler.lastId ((first :: tl).filter (Crawler.inRange oldest newest)) - 1 :=
                hrec.2
              omega

lemma extractHits_eq_none {blocks : List (List Message)} {block : List Message}
    (hb : block ∈ blocks) (hnone : Crawler.extractHit block = none) :
    Crawler.extractHits blocks = none := by
  induction blocks with
  | nil => cases hb
  | cons b bs ih =>
    rcases List.mem_cons.mp hb with rfl | hb2
    · simp [Crawler.extractHits, hnone]
    · have hn := ih hb2
      cases h1 : Crawler.extractHit b <;> simp [Crawler.extractHits, h1, hn]

/-- C1: for every scripted sequence of search pages, every message in every
batch yielded by `search_messages_by_author_id` has an ID in the closed
interval `[oldest_message_id, newest_message_id]` as those bounds were given
at call start; no yielded batch contains a message outside that interval. -/
theorem C1_yields_within_initial_bounds (oldest newest : Int)
    (script : List SearchPage) (p : Nat × List Message)
    (hp : p ∈ (Crawler.search_messages_by_author_id oldest newest script).1)
    (m : Message) (hm : m ∈ p.2) :
    oldest ≤ m.id ∧ m.id ≤ newest :=
  searchGo_bounds oldest script 0 newest 0 p hp m hm

/-- Witness for C1: a concrete one-page script yielding one in-range
message. -/
theorem C1_witness :
    (10 : Int) ≤ (Message.mk 15 7 "t" "c" true).id ∧
      (Message.mk 15 7 "t" "c" true).id ≤ 20 :=
  C1_yields_within_initial_bounds 10 20 [⟨1, [[⟨15, 7, "t", "c", true⟩]]⟩]
    (1, [⟨15, 7, "t", "c", true⟩]) (by decide) ⟨15, 7, "t", "c", true⟩ (by decide)

/-- C5: if a fetched page yields zero hits after per-block extraction, or
the first extracted hit's ID is strictly below `oldest_message_id`, the
paginator stops immediately with no further batches; and it never yields a
message with ID below the initial `oldest_message_id` bound. -/
theorem C5_stop_conditions (oldest newest : Int) :
    (∀ (page : SearchPage) (rest : List SearchPage) (offset total : Nat)
        (hits : List Message),
      Crawler.extractHits page.messages = some hits →
      (hits = [] ∨ ∃ m, hits.head? = some m ∧ m.id < oldest) →
      Crawler.searchGo oldest (page :: rest) offset newest total =
        ([], Crawler.PagEnd.normal))
    ∧ (∀ (script : List SearchPage) (p : Nat × List Message),
      p ∈ (Crawler.search_messages_by_author_id oldest newest script).1 →
      ∀ m ∈ p.2, oldest ≤ m.id) := by
  constructor
  · intro page rest offset total hits hext hstop
    rw [searchGo_cons, hext]
    cases hits with
    | nil => rfl
    | cons first tl =>
      rcases hstop with hnil | ⟨m, hm, hlt⟩
      · exact absurd hnil (List.cons_ne_nil first tl)
      · have hfm : first = m := by simpa using hm
        subst hfm
        dsimp only
        rw [if_pos hlt]
  · intro script p hp m hm
    exact (searchGo_bounds oldest script 0 newest 0 p hp m hm).1

/-- Witness for C5: a page whose first hit (ID 3) is below the floor 10
stops the sweep at once. -/
theorem C5_witness :
    Crawler.searchGo 10 [⟨1, [[⟨3, 7, "t", "c", true⟩]]⟩] 0 20 0 =
      ([], Crawler.PagEnd.normal) :=
  (C5_stop_conditions 10 20).1 ⟨1, [[⟨3, 7, "t", "c", true⟩]]⟩ [] 0 0
    [⟨3, 7, "t", "c", true⟩] (by decide)
    (Or.inr ⟨⟨3, 7, "t", "c", true⟩, rfl, by decide⟩)

/-- C10: a page containing some block with no hit-flagged message makes the
per-block extraction undefined — Python indexes element 0 of an empty
filtered list — so the paginator fails on that page instead of skipping the
block or yielding a batch. -/
theorem C10_hitless_block_fails (oldest newest : Int) (page : SearchPage)
    (rest : List SearchPage) (offset total : Nat) (block : List Message)
    (hb : block ∈ page.messages) (hall : ∀ m ∈ block, m.hit = false) :
    Crawler.extractHits page.messages = none ∧
    Crawler.searchGo oldest (page :: rest) offset newest total =
      ([], Crawler.PagEnd.extractError) := by
  have hfilter : block.filter (fun m => m.hit) = [] :=
    List.filter_eq_nil_iff.mpr (fun a ha => by simp [hall a ha])
  have hnone : Crawler.extractHit block = none := by
    simp [Crawler.extractHit, hfilter]
  have hx := extractHits_eq_none hb hnone
  refine ⟨hx, ?_⟩
  rw [searchGo_cons, hx]

/-- Witness for C10: a one-block page whose block holds only a non-hit
message. -/
theorem C10_witness :
    Crawler.extractHits [[(⟨5, 7, "t", "c", false⟩ : Message)]] = none ∧
    Crawler.searchGo 10 [⟨1, [[⟨5, 7, "t", "c", false⟩]]⟩] 0 20 0 =
      ([], Crawler.PagEnd.extractError) :=
  C10_hitless_block_fails 10 20 ⟨1, [[⟨5, 7, "t", "c", false⟩]]⟩ [] 0 0
    [⟨5, 7, "t", "c", false⟩] (by decide) (by decide)

lemma sum_take_le (L : List Nat) {i j : Nat} (h : i ≤ j) :
    (L.take i).sum ≤ (L.take j).sum := by
  have h1 : L.take i = (L.take j).take i := by
    rw [List.take_take, Nat.min_eq_left h]
  calc (L.take i).sum = ((L.take j).take i).sum := by rw [← h1]
    _ ≤ ((L.take j).take i).sum + ((L.take j).drop i).sum := Nat.le_add_right _ _
    _ = (L.take j).sum := by rw [← List.sum_append, List.take_append_drop]

lemma searchGo_totals (oldest : Int) (script : List SearchPage) :
    ∀ (offset : Nat) (newest : Int) (total : Nat) (i : Nat) (a : Nat × List Message),
      (Crawler.searchGo oldest script offset newest total).1[i]? = some a →
      a.1 = total +
        (((Crawler.searchGo oldest script offset newest total).1.take (i + 1)).map
          (fun p => p.2.length)).sum := by
  induction script with
  | nil =>
    intro offset newest total i a ha
    simp [Crawler.searchGo] at ha
  | cons page rest ih =>
    intro offset newest total i a ha
    rw [searchGo_cons] at ha ⊢
    cases hext : Crawler.extractHits page.messages with
    | none =>
      rw [hext] at ha
      simp at ha
    | some hits =>
      rw [hext] at ha
      cases hits with
      | nil => simp at ha
      | cons first tl =>
        dsimp only at ha ⊢
        by_cases hfloor : first.id < oldest
        · rw [if_pos hfloor] at ha ⊢
          simp at ha
        · rw [if_neg hfloor] at ha ⊢
          by_cases hflen :
              ((first :: tl).filter (Crawler.inRange oldest newest)).length = 0
          · rw [if_pos hflen] at ha ⊢
            exact ih _ _ _ i a ha
          · rw [if_neg hflen] at ha ⊢
            dsimp only at ha ⊢
            cases i with
            | zero =>
              simp only [List.getElem?_cons_zero, Option.some_inj] at ha
              subst ha
              simp
            | succ n =>
              simp only [List.getElem?_cons_succ] at ha
              have hrec := ih _ _ _ n a ha
              rw [List.take_succ_cons, List.map_cons, List.sum_cons]
              dsimp only
              omega

/-- C6: for every run of the paginator, the `running_total` of successive
yielded pairs is monotonically non-decreasing, and at each yield it equals
the sum of the sizes of all batches yielded so far, including the current
one. -/
theorem C6_running_total (oldest newest : Int) (script : List SearchPage) :
    (∀ (i j : Nat) (a b : Nat × List Message), i ≤ j →
      (Crawler.search_messages_by_author_id oldest newest script).1[i]? = some a →
      (Crawler.search_messages_by_author_id oldest newest script).1[j]? = some b →
      a.1 ≤ b.1)
    ∧ (∀ (i : Nat) (a : Nat × List Message),
      (Crawler.search_messages_by_author_id oldest newest script).1[i]? = some a →
      a.1 = (((Crawler.search_messages_by_author_id oldest newest script).1.take (i + 1)).map
        (fun p => p.2.length)).sum) := by
  have key : ∀ (i : Nat) (a : Nat × List Message),
      (Crawler.search_messages_by_author_id oldest newest script).1[i]? = some a →
      a.1 = (((Crawler.search_messages_by_author_id oldest newest script).1.take (i + 1)).map
        (fun p => p.2.length)).sum := by
    intro i a ha
    have h := searchGo_totals oldest script 0 newest 0 i a ha
    simpa using h
  constructor
  · intro i j a b hij ha hb
    have h1 := key i a ha
    have h2 := key j b hb
    rw [List.map_take] at h1 h2
    rw [h1, h2]
    exact sum_take_le _ (Nat.succ_le_succ hij)
  · exact key

/-- Witness for C6 on a concrete two-page script: the two yields carry
running totals 1 and 2. -/
theorem C6_witness :
    ((1, [(⟨20, 7, "t", "c", true⟩ : Message)]) : Nat × List Message).1 ≤
      ((2, [(⟨15, 7, "t", "c", true⟩ : Message)]) : Nat × List Message).1 ∧
    ((2, [(⟨15, 7, "t", "c", true⟩ : Message)]) : Nat × List Message).1 =
      (((Crawler.search_messages_by_author_id 10 20
        [⟨2, [[⟨20, 7, "t", "c", true⟩]]⟩, ⟨2, [[⟨15, 7, "t", "c", true⟩]]⟩]).1.take 2).map
          (fun p => p.2.length)).sum := by
  constructor
  · exact (C6_running_total 10 20
      [⟨2, [[⟨20, 7, "t", "c", true⟩]]⟩, ⟨2, [[⟨15, 7, "t", "c", true⟩]]⟩]).1 0 1
      (1, [⟨20, 7, "t", "c", true⟩]) (2, [⟨15, 7, "t", "c", true⟩])
      (by decide) (by decide) (by decide)
  · exact (C6_running_total 10 20
      [⟨2, [[⟨20, 7, "t", "c", true⟩]]⟩, ⟨2, [[⟨15, 7, "t", "c", true⟩]]⟩]).2 1
      (2, [⟨15, 7, "t", "c", true⟩]) (by decide)

/-- C4: when the replace mode is not `none`, the per-message loop issues the
delete call only after the replace call for that message succeeded — the
call trace is `[replace, delete]` on replace success — and on replace
failure the trace is `[replace]` alone (delete skipped) with the failure
tally incremented exactly once. -/
theorem C4_replace_gates_delete (mode : ReplaceMode) (replace_to : String)
    (o : MutOracle) (m : Message) (hmode : mode ≠ ReplaceMode.nonemode) :
    (o.replaceOk m.id = true →
      (processMessage mode replace_to o m).1 =
        [MutCall.replace m.channel_id m.id
            (if mode = ReplaceMode.random then o.randStr m.id else replace_to),
          MutCall.delete m.channel_id m.id])
    ∧ (o.replaceOk m.id = false →
      (processMessage mode replace_to o m).1 =
        [MutCall.replace m.channel_id m.id
            (if mode = ReplaceMode.random then o.randStr m.id else replace_to)] ∧
      (processMessage mode replace_to o m).2 = 1) := by
  constructor
  · intro hr
    cases hdel : o.deleteOk m.id <;> simp [processMessage, hmode, hr, hdel]
  · intro hr
    simp [processMessage, hmode, hr]

/-- Witness for C4: in `fixed` mode with a failing replace, only the replace
call is issued and the failure tally is 1. -/
theorem C4_witness :
    (processMessage ReplaceMode.fixed "X"
        ⟨fun _ => false, fun _ => true, fun _ => "r"⟩ ⟨5, 7, "t", "c", true⟩).1 =
      [MutCall.replace 7 5 "X"] ∧
    (processMessage ReplaceMode.fixed "X"
        ⟨fun _ => false, fun _ => true, fun _ => "r"⟩ ⟨5, 7, "t", "c", true⟩).2 = 1 := by
  have h := (C4_replace_gates_delete ReplaceMode.fixed "X"
      ⟨fun _ => false, fun _ => true, fun _ => "r"⟩ ⟨5, 7, "t", "c", true⟩
      (by decide)).2 rfl
  simpa using h

/-- C9: when the first search page yields zero hits, the paginator yields an
empty sequence, the orchestrator reports `total_results_size = 0`, and no
replace or delete call is ever issued. -/
theorem C9_empty_first_page (oldest newest : Int) (page : SearchPage)
    (rest : List SearchPage) (mode : ReplaceMode) (replace_to : String)
    (o : MutOracle)
    (hz : Crawler.extractHits page.messages = some []) :
    (Crawler.search_messages_by_author_id oldest newest (page :: rest)).1 = [] ∧
    mainRun mode replace_to o
      (Crawler.search_messages_by_author_id oldest newest (page :: rest)).1 =
      ⟨0, 0, []⟩ := by
  have h1 : Crawler.search_messages_by_author_id oldest newest (page :: rest) =
      ([], Crawler.PagEnd.normal) := by
    show Crawler.searchGo oldest (page :: rest) 0 newest 0 = _
    rw [searchGo_cons, hz]
  rw [h1]
  exact ⟨rfl, rfl⟩

/-- Witness for C9: an empty first page under a `none`-mode run. -/
theorem C9_witness :
    (Crawler.search_messages_by_author_id 10 20 [⟨0, []⟩]).1 = [] ∧
    mainRun ReplaceMode.nonemode "" ⟨fun _ => true, fun _ => true, fun _ => ""⟩
      (Crawler.search_messages_by_author_id 10 20 [⟨0, []⟩]).1 = ⟨0, 0, []⟩ :=
  C9_empty_first_page 10 20 ⟨0, []⟩ [] ReplaceMode.nonemode ""
    ⟨fun _ => true, fun _ => true, fun _ => ""⟩ rfl
